import Mathlib

/-!
A shallow embedding of the ghostty-animation terminal lock (`lock.py`).

The file embeds the behaviourally relevant parts of the program as executable
Lean definitions and proves properties about them:

* the password-entry loop `get_hidden_input` as a step function over single
  keystrokes (lines 129-163 of `lock.py`);
* credential verification `verify_password` over an explicit environment
  recording which OS backends are available and how they answer
  (lines 165-194);
* attempt logging `log_attempt` (lines 40-48);
* the alternate-screen restore writer `restore_terminal_state` over an
  explicit terminal-device model (lines 220-228);
* the top-level render loop `play_animation` (lines 230-281) and the
  `__main__` wrapper (lines 283-298) as an interpreter over a list of
  externally scheduled events: frame-loop iterations, keyboard interrupts
  carrying a verification environment, deliveries of the SIGTSTP/SIGQUIT
  signals (whose handlers, lines 196-204, only write a log line), and fatal
  errors escaping to the outer handlers.
-/

namespace Lock

/-! Password entry: `get_hidden_input`, lock.py lines 129-163.  The Python
loop reads one character at a time with `getch` (a raw-mode, no-echo,
single-byte read of anything on stdin) and mutates `password` and
`field_pos`.  We model the loop body as a step function on that state and
the whole loop as a fold over the list of characters available on stdin. -/

/-- Mutable state of the `get_hidden_input` loop: the collected password and
the cursor offset `field_pos` inside the 20-cell input field. -/
structure HState where
  password : List Char
  field_pos : Int
deriving Repr, DecidableEq

/-- The screen writes one step of the password loop performs, abstracted:
a mask asterisk, the Ctrl+U full-field redraw, the backspace underscore
redraw, or the cursor hide emitted just before returning. -/
inductive Echo where
  | maskStar
  | clearField
  | eraseOne
  | hideCursor
deriving Repr, DecidableEq

/-- Result of processing one keystroke, exactly as the loop body does. -/
inductive HOut where
  | pending (st : HState) (echo : List Echo)
  | returned (password : List Char) (echo : List Echo)
  | kbInterrupt (echo : List Echo)
deriving Repr, DecidableEq

/-- One iteration of the `while True` body of `get_hidden_input`. -/
def hidden_input_step (st : HState) (c : Char) : HOut :=
  if c = '\r' ∨ c = '\n' then
    .returned st.password [.hideCursor]
  else if c = '\x03' then
    .kbInterrupt []
  else if c = '\x15' then
    .pending ⟨[], 0⟩ [.clearField]
  else if c = '\x7f' then
    if st.password ≠ [] then
      .pending ⟨st.password.dropLast, st.field_pos - 1⟩ [.eraseOne]
    else
      .pending st []
  else if st.password.length < 20 then
    .pending ⟨st.password ++ [c], st.field_pos + 1⟩ [.maskStar]
  else
    .pending st []

/-- Outcome of running the loop on a finite supply of keystrokes:
still waiting for input, returned a password, or raised KeyboardInterrupt. -/
inductive HRun where
  | pending (st : HState)
  | returned (password : List Char)
  | kbInterrupt
deriving Repr, DecidableEq

/-- Run the `get_hidden_input` loop from a given state over a list of
keystrokes. -/
def hidden_input_run : HState → List Char → HRun
  | st, [] => .pending st
  | st, c :: cs =>
    match hidden_input_step st c with
    | .pending st2 _ => hidden_input_run st2 cs
    | .returned p _ => .returned p
    | .kbInterrupt _ => .kbInterrupt

/-- `get_hidden_input`: fresh buffer, then the keystroke loop. -/
def get_hidden_input (input : List Char) : HRun :=
  hidden_input_run ⟨[], 0⟩ input

/-! Attempt logging: `log_attempt`, lock.py lines 40-48.  The log line is
built from the current user, hostname, IP address, the boolean outcome and
the mechanism name; nothing else enters it. -/

/-- The host-identity metadata `log_attempt` gathers. -/
structure Sysinfo where
  user : String
  hostname : String
  ip : String
deriving Repr, DecidableEq

/-- The structured content of one attempt log line. -/
structure AttemptRecord where
  user : String
  hostname : String
  ip : String
  success : Bool
  method : String
deriving Repr, DecidableEq

/-- `log_attempt(success, method)`: the record written to the log sink. -/
def log_attempt (si : Sysinfo) (success : Bool) (method : String) : AttemptRecord :=
  ⟨si.user, si.hostname, si.ip, success, method⟩

/-- The literal message text of the log line, as formatted at line 45. -/
def attempt_message (r : AttemptRecord) : String :=
  "Exit attempt by " ++ r.user ++ " from " ++ r.hostname ++ " (" ++ r.ip
    ++ ") - " ++ (if r.success then "SUCCESS" else "FAILED")
    ++ " using " ++ r.method

/-! Credential verification: `verify_password`, lock.py lines 165-194.
The environment records the outcome of every external interaction the
function can make: whether `import spwd` / `import crypt` succeeds, what
`spwd.getspnam(user).sp_pwd` yields (a hash, or a raised exception), the
`crypt.crypt` function, the result of running `dscl` (a return code, or a
raised exception), and the keystrokes available to `get_hidden_input`. -/

/-- Environment for one call of `verify_password`. -/
structure VerifyEnv where
  sysinfo : Sysinfo
  spwd_available : Bool
  getspnam_result : Except String String
  crypt : List Char → String → String
  dscl_result : Except String Int
  input : List Char

/-- The value and side effects of a completed `verify_password` call:
the returned boolean, the attempt record passed to `log_attempt`, and
whether the `dscl` fallback was invoked. -/
structure VerifyResult where
  success : Bool
  record : AttemptRecord
  dscl_invoked : Bool
deriving Repr, DecidableEq

/-- Outcome of `verify_password`: `blocked` when `getch` would block forever
because the keystroke supply ran out before Enter or Ctrl+C. -/
inductive VerifyOutcome where
  | blocked
  | done (r : VerifyResult)
deriving Repr, DecidableEq

/-- `verify_password`, translated branch by branch.  The inner `try` has
`except ImportError` only, so everything but a failed import of
`spwd`/`crypt` — including a raised `getspnam` lookup and a raised
`subprocess.run` — lands in the outer `except` clauses, which log and
return `False`. -/
def verify_password (env : VerifyEnv) : VerifyOutcome :=
  if env.spwd_available then
    match env.getspnam_result with
    | .ok password_hash =>
      match get_hidden_input env.input with
      | .pending _ => .blocked
      | .kbInterrupt =>
        .done ⟨false, log_attempt env.sysinfo false "interrupted", false⟩
      | .returned password =>
        let success : Bool := decide (env.crypt password password_hash = password_hash)
        .done ⟨success, log_attempt env.sysinfo success "Linux shadow password", false⟩
    | .error e =>
      .done ⟨false, log_attempt env.sysinfo false ("error: " ++ e), false⟩
  else
    match get_hidden_input env.input with
    | .pending _ => .blocked
    | .kbInterrupt =>
      .done ⟨false, log_attempt env.sysinfo false "interrupted", false⟩
    | .returned _ =>
      match env.dscl_result with
      | .ok rc =>
        let success : Bool := decide (rc = 0)
        .done ⟨success, log_attempt env.sysinfo success "macOS dscl", true⟩
      | .error e =>
        .done ⟨false, log_attempt env.sysinfo false ("error: " ++ e), true⟩

/-- `verify_password` specialised to a run whose password entry completed
with `password`; used to factor proofs. -/
def verify_done (env : VerifyEnv) (password : List Char) : VerifyResult :=
  if env.spwd_available then
    match env.getspnam_result with
    | .ok password_hash =>
      let success : Bool := decide (env.crypt password password_hash = password_hash)
      ⟨success, log_attempt env.sysinfo success "Linux shadow password", false⟩
    | .error e =>
      ⟨false, log_attempt env.sysinfo false ("error: " ++ e), false⟩
  else
    match env.dscl_result with
    | .ok rc =>
      let success : Bool := decide (rc = 0)
      ⟨success, log_attempt env.sysinfo success "macOS dscl", true⟩
    | .error e =>
      ⟨false, log_attempt env.sysinfo false ("error: " ++ e), true⟩

/-- The method name a completed run logs; it depends only on the backend
configuration, never on the entered keystrokes. -/
def method_of (env : VerifyEnv) : String :=
  if env.spwd_available then
    match env.getspnam_result with
    | .ok _ => "Linux shadow password"
    | .error e => "error: " ++ e
  else
    match env.dscl_result with
    | .ok _ => "macOS dscl"
    | .error e => "error: " ++ e

/-- The boolean produced by the OS credential primitive itself, when a run
reaches one: the crypt-hash comparison on the shadow branch (line 177), the
`dscl` exit status on the fallback branch (line 185); `none` when no
credential check happens (blocked input, cancelled entry, or a backend
error). -/
def credential_check (env : VerifyEnv) : Option Bool :=
  if env.spwd_available then
    match env.getspnam_result with
    | .ok password_hash =>
      match get_hidden_input env.input with
      | .returned password =>
        some (decide (env.crypt password password_hash = password_hash))
      | _ => none
    | .error _ => none
  else
    match get_hidden_input env.input with
    | .returned _ =>
      match env.dscl_result with
      | .ok rc => some (decide (rc = 0))
      | .error _ => none
    | _ => none

/-! Terminal screen-buffer model: `save_terminal_state` and
`restore_terminal_state`, lock.py lines 220-228.  Both unconditionally
write a fixed control sequence to stdout; we track the terminal state the
sequences produce and the chronological list of writes. -/

/-- Alternate-screen and cursor-visibility state of the terminal. -/
structure TermState where
  alt_screen : Bool
  cursor_visible : Bool
deriving Repr, DecidableEq

/-- A terminal device: its state plus everything written to it so far. -/
structure TermDev where
  state : TermState
  out : List String
deriving Repr, DecidableEq

/-- The control sequence written by `restore_terminal_state` (line 227). -/
def restore_seq : String := "\x1b[?25h\x1b[?1049l"

/-- The control sequence written by `save_terminal_state` (line 222). -/
def save_seq : String := "\x1b[?1049h\x1b[?25l"

/-- `save_terminal_state`: switch to the alternate screen and hide the
cursor, unconditionally writing the sequence. -/
def save_terminal_state (t : TermDev) : TermDev :=
  ⟨⟨true, false⟩, t.out ++ [save_seq]⟩

/-- `restore_terminal_state`: show the cursor and leave the alternate
screen, unconditionally writing the sequence. -/
def restore_terminal_state (t : TermDev) : TermDev :=
  ⟨⟨false, true⟩, t.out ++ [restore_seq]⟩

/-! The render loop: `play_animation`, lock.py lines 230-281, and the
`__main__` wrapper, lines 283-298.  The loop is

    while True:
      try:
        for frame_num in range(current_frame, 236):
          try:
            if not exists(path(frame_num)): log; continue
            render_frame(read(path(frame_num)))
            sleep(1/24)
            current_frame = frame_num
          except Exception: log; continue
        current_frame = 1
      except KeyboardInterrupt:
        if verify_password(): RESET; log; restore_terminal_state(); sys.exit(0)
        continue

wrapped in a `try` whose `except Exception` logs, restores and re-raises;
`__main__` wraps the call again, and on `Exception` logs, writes RESET,
restores and re-raises.  `sys.exit(0)` raises `SystemExit`, which is not an
`Exception`, so it passes through both handlers untouched.

We interpret the loop over a list of events.  One `iter` event is one
attempted iteration of the inner `for` loop; it may run normally, be cut
by a `KeyboardInterrupt` (delivered before the render, or during the sleep
— in both cases before the `current_frame = frame_num` assignment at line
258 has run), or be the point where an `Exception` escapes the per-frame
handler region into the outer handler (modelling e.g. a terminal write
failure in code outside the per-frame `try`).  A `sig` event is a delivery
of SIGTSTP or SIGQUIT between iterations; the installed handlers (lines
196-204) only write a log line, so between-iteration granularity is a
faithful abstraction. -/

/-- Static configuration of a run: which frame files exist, and the
current user name used in log lines. -/
structure Config where
  frame_exists : Nat → Bool
  user : String

/-- `play_animation` locals: `current_frame` (last index committed at line
258 or reset at line 263) and `frame_num` (the position of the `for`). -/
structure LoopState where
  current_frame : Nat
  frame_num : Nat
deriving Repr, DecidableEq

/-- Where in an iteration a KeyboardInterrupt lands: before the frame is
rendered, or during the sleep after it was rendered.  In both cases the
`current_frame = frame_num` assignment has not yet run. -/
inductive IntPt where
  | beforeRender
  | midSleep
deriving Repr, DecidableEq

/-- The two neutralized signals. -/
inductive SigKind where
  | tstp
  | quit
deriving Repr, DecidableEq

/-- Behaviour of one attempted `for`-iteration. -/
inductive IterBehavior where
  | normal
  | kbInt (pt : IntPt) (env : VerifyEnv)
  | fatal (e : String)

/-- One externally scheduled event. -/
inductive Ev where
  | sig (s : SigKind)
  | iter (b : IterBehavior)

/-- Events that are not signal deliveries. -/
def not_sig : Ev → Bool
  | .sig _ => false
  | .iter _ => true

/-- Observable side effects of a run segment: frames rendered (in order),
log lines, number of `restore_terminal_state` calls, completed frame-rate
sleeps (by frame index), and attempt records emitted. -/
structure Trace where
  rendered : List Nat
  logs : List String
  restores : Nat
  sleeps : List Nat
  records : List AttemptRecord
deriving Repr, DecidableEq

/-- The empty trace. -/
def Trace.nil : Trace := ⟨[], [], 0, [], []⟩

/-- Concatenate two trace segments in chronological order. -/
def Trace.append (a b : Trace) : Trace :=
  ⟨a.rendered ++ b.rendered, a.logs ++ b.logs, a.restores + b.restores,
   a.sleeps ++ b.sleeps, a.records ++ b.records⟩

/-- Three-digit zero padding, as in the Python format spec `03d`. -/
def pad3 (n : Nat) : String :=
  if n < 10 then "00" ++ toString n
  else if n < 100 then "0" ++ toString n
  else toString n

/-- The frame file path built at line 249. -/
def frame_path (n : Nat) : String :=
  "./animation_frames/frame_" ++ pad3 n ++ ".txt"

/-- The diagnostic logged for a missing frame file (line 251). -/
def missing_msg (n : Nat) : String :=
  "Missing animation frame: " ++ frame_path n

/-- The log line a signal handler writes (lines 197 and 202). -/
def sig_log (cfg : Config) : SigKind → String
  | .tstp => "SIGTSTP (Ctrl+Z) attempt by " ++ cfg.user
  | .quit => "SIGQUIT (Ctrl+\\) attempt by " ++ cfg.user

/-- The session-end log line (line 270). -/
def end_msg (cfg : Config) : String :=
  "Terminal lock ended by " ++ cfg.user

/-- The log line of `play_animation`'s outer handler (line 279). -/
def critical_msg (e : String) : String :=
  "Critical animation error: " ++ e

/-- The log line of the `__main__` handler (line 293). -/
def fatal_msg (e : String) : String :=
  "Fatal error: " ++ e

/-- Loop position after one `for` iteration at index `fn` whose committed
`current_frame` value is `committed`: past index 235 the `for` ends, line
263 resets `current_frame` to 1 and the next `for` starts at 1. -/
def advance (committed fn : Nat) : LoopState :=
  if 235 ≤ fn then ⟨1, 1⟩ else ⟨committed, fn + 1⟩

/-- The frame rendered by an iteration that is interrupted mid-sleep:
the render at line 256 has already happened (when the file exists);
an interrupt before the render leaves nothing on screen. -/
def mid_sleep_render (cfg : Config) (st : LoopState) (pt : IntPt) : List Nat :=
  if pt = .midSleep ∧ cfg.frame_exists st.frame_num then [st.frame_num] else []

/-- How `play_animation` ends relative to an event list. -/
inductive PlayOutcome where
  | running (st : LoopState)
  | blocked
  | exit0
  | raised (e : String)
deriving Repr, DecidableEq

/-- Result of one attempted iteration: continue the loop from a new state,
or halt `play_animation` with an outcome. -/
inductive IterResult where
  | cont (st : LoopState) (d : Trace)
  | halt (d : Trace) (o : PlayOutcome)

/-- One attempted `for`-iteration of `play_animation`. -/
def step_iter (cfg : Config) (st : LoopState) : IterBehavior → IterResult
  | .normal =>
    if cfg.frame_exists st.frame_num then
      .cont (advance st.frame_num st.frame_num)
        ⟨[st.frame_num], [], 0, [st.frame_num], []⟩
    else
      .cont (advance st.current_frame st.frame_num)
        ⟨[], [missing_msg st.frame_num], 0, [], []⟩
  | .kbInt pt env =>
    let d0 : Trace := ⟨mid_sleep_render cfg st pt, [], 0, [], []⟩
    match verify_password env with
    | .blocked => .halt d0 .blocked
    | .done r =>
      if r.success then
        .halt (Trace.append d0 ⟨[], [end_msg cfg], 1, [], [r.record]⟩) .exit0
      else
        .cont ⟨st.current_frame, st.current_frame⟩
          (Trace.append d0 ⟨[], [], 0, [], [r.record]⟩)
  | .fatal e =>
    .halt ⟨[], [critical_msg e], 1, [], []⟩ (.raised e)

/-- The render loop of `play_animation`, interpreted over an event list. -/
def play_animation (cfg : Config) : LoopState → List Ev → Trace × PlayOutcome
  | st, [] => (Trace.nil, .running st)
  | st, .sig s :: evs =>
    let r := play_animation cfg st evs
    (Trace.append ⟨[], [sig_log cfg s], 0, [], []⟩ r.1, r.2)
  | st, .iter b :: evs =>
    match step_iter cfg st b with
    | .cont st2 d =>
      let r := play_animation cfg st2 evs
      (Trace.append d r.1, r.2)
    | .halt d o => (d, o)

/-- How the whole process ends. -/
inductive MainOutcome where
  | running (st : LoopState)
  | blocked
  | exited (code : Nat)
  | raised_after_restore (e : String)
deriving Repr, DecidableEq

/-- The `__main__` wrapper: `play_animation` from frame 1; `SystemExit`
passes through (exit code 0); an `Exception` is logged, the terminal
restored once more, and the exception re-raised. -/
def main_run (cfg : Config) (evs : List Ev) : Trace × MainOutcome :=
  match play_animation cfg ⟨1, 1⟩ evs with
  | (tr, .running st) => (tr, .running st)
  | (tr, .blocked) => (tr, .blocked)
  | (tr, .exit0) => (tr, .exited 0)
  | (tr, .raised e) =>
    (Trace.append tr ⟨[], [fatal_msg e], 1, [], []⟩, .raised_after_restore e)

/-- The number of `restore_terminal_state` calls `play_animation` itself has
performed by the time it ends the given way: one on the authenticated exit
(line 271) and one in its outer handler (line 280); none while it is still
looping or blocked in `getch`. -/
def play_exit_restores : PlayOutcome → Nat
  | .running _ => 0
  | .blocked => 0
  | .exit0 => 1
  | .raised _ => 1

/-! Concrete exemplars used by witnesses and counterexamples. -/

/-- Fixed host-identity metadata. -/
def si0 : Sysinfo := ⟨"alice", "host", "10.0.0.2"⟩

/-- All frame files present. -/
def cfg_all : Config := ⟨fun _ => true, "alice"⟩

/-- All frame files present except index 10. -/
def cfg_miss10 : Config := ⟨fun n => decide (n ≠ 10), "alice"⟩

/-- Shadow backend available; the entered password hashes to the stored
hash, so verification succeeds. -/
def env_ok : VerifyEnv :=
  ⟨si0, true, .ok "h1", fun _ h => h, .ok 1, ['p', 'w', '\r']⟩

/-- Shadow backend available; the crypt result never matches, so
verification fails. -/
def env_fail : VerifyEnv :=
  ⟨si0, true, .ok "h1", fun _ _ => "nomatch", .ok 1, ['p', 'w', '\r']⟩

/-- `spwd`/`crypt` import fine but the shadow lookup raises (as it does
for a non-root user): `getspnam` is unavailable. -/
def env_perm : VerifyEnv :=
  ⟨si0, true, .error "PermissionError", fun _ h => h, .ok 0, ['p', 'w', '\r']⟩

/-- Neither backend works: the shadow modules fail to import and the
`dscl` invocation raises. -/
def env_both_unavailable : VerifyEnv :=
  ⟨si0, false, .ok "h1", fun _ h => h, .error "FileNotFoundError: dscl",
   ['p', 'w', '\r']⟩

/-- Like `env_fail` but with a different secret typed at the prompt. -/
def env_fail2 : VerifyEnv :=
  ⟨si0, true, .ok "h1", fun _ _ => "nomatch", .ok 1, ['q', '\r']⟩

/-- The event schedule of the frame-57 scenario: 56 completed ticks, a
KeyboardInterrupt mid-sleep during the tick of frame 57 with a failing
password attempt, then one more normal tick. -/
def evs_c4 : List Ev :=
  List.replicate 56 (.iter .normal)
    ++ [.iter (.kbInt .midSleep env_fail), .iter .normal]

/-! Theorems. -/

theorem hidden_step_len (st : HState) (c : Char) (h : st.password.length ≤ 20) :
    (∀ st2 e, hidden_input_step st c = .pending st2 e → st2.password.length ≤ 20) ∧
    (∀ p e, hidden_input_step st c = .returned p e → p.length ≤ 20) := by
  unfold hidden_input_step
  split_ifs <;> constructor <;> intro a b hh <;> cases hh <;> simp_all <;> omega

theorem hidden_run_len : ∀ (input : List Char) (st : HState),
    st.password.length ≤ 20 →
    (∀ st2, hidden_input_run st input = .pending st2 → st2.password.length ≤ 20) ∧
    (∀ p, hidden_input_run st input = .returned p → p.length ≤ 20) := by
  intro input
  induction input with
  | nil =>
    intro st h
    refine ⟨fun st2 hh => ?_, fun p hh => ?_⟩
    · cases hh; exact h
    · cases hh
  | cons c cs ih =>
    intro st h
    rcases hstep : hidden_input_step st c with ⟨st2, e⟩ | ⟨p, e⟩ | e
    · have h2 := (hidden_step_len st c h).1 st2 e hstep
      refine ⟨fun st3 hh => ?_, fun q hh => ?_⟩
      · simp only [hidden_input_run, hstep] at hh
        exact (ih st2 h2).1 st3 hh
      · simp only [hidden_input_run, hstep] at hh
        exact (ih st2 h2).2 q hh
    · have h2 := (hidden_step_len st c h).2 p e hstep
      refine ⟨fun st3 hh => ?_, fun q hh => ?_⟩
      · simp only [hidden_input_run, hstep] at hh
        exact HRun.noConfusion hh
      · simp only [hidden_input_run, hstep] at hh
        cases hh; exact h2
    · refine ⟨fun st3 hh => ?_, fun q hh => ?_⟩ <;>
      · simp only [hidden_input_run, hstep] at hh
        exact HRun.noConfusion hh

/-- C5: every state of the password-entry loop reachable from the fresh
buffer keeps the password length at most 20 (likewise the returned
password); a non-special keystroke arriving when the buffer already holds
20 characters leaves state and screen untouched; a Backspace (DEL, 0x7f)
on an empty buffer leaves state and screen untouched. -/
theorem C5_password_buffer_invariant :
    (∀ input st2, get_hidden_input input = .pending st2 →
      st2.password.length ≤ 20) ∧
    (∀ input p, get_hidden_input input = .returned p → p.length ≤ 20) ∧
    (∀ st c, st.password.length = 20 →
      c ≠ '\r' → c ≠ '\n' → c ≠ '\x03' → c ≠ '\x15' → c ≠ '\x7f' →
      hidden_input_step st c = .pending st []) ∧
    (∀ st, st.password = [] →
      hidden_input_step st '\x7f' = .pending st []) := by
  refine ⟨?_, ?_, ?_, ?_⟩
  · intro input st2 hh
    exact (hidden_run_len input ⟨[], 0⟩ (by simp)).1 st2 hh
  · intro input p hh
    exact (hidden_run_len input ⟨[], 0⟩ (by simp)).2 p hh
  · intro st c hlen h1 h2 h3 h4 h5
    have h6 : ¬(st.password.length < 20) := by omega
    simp [hidden_input_step, h1, h2, h3, h4, h5, h6]
  · intro st h
    have e1 : ¬('\x7f' = '\r' ∨ '\x7f' = '\n') := by decide
    have e2 : ¬('\x7f' = '\x03') := by decide
    have e3 : ¬('\x7f' = '\x15') := by decide
    simp [hidden_input_step, e1, e2, e3, h]

theorem C5_witness :
    hidden_input_step ⟨List.replicate 20 'a', 20⟩ 'x'
      = .pending ⟨List.replicate 20 'a', 20⟩ []
    ∧ hidden_input_step ⟨[], 0⟩ '\x7f' = .pending ⟨[], 0⟩ []
    ∧ (⟨['a', 'b'], 2⟩ : HState).password.length ≤ 20 := by
  refine ⟨?_, ?_, ?_⟩
  · exact C5_password_buffer_invariant.2.2.1 ⟨List.replicate 20 'a', 20⟩ 'x'
      (by decide) (by decide) (by decide) (by decide) (by decide) (by decide)
  · exact C5_password_buffer_invariant.2.2.2 ⟨[], 0⟩ rfl
  · exact C5_password_buffer_invariant.1 ['a', 'b'] ⟨['a', 'b'], 2⟩ (by decide)

/-- C10: the password loop performs no printability check: every keystroke
other than CR, LF, Ctrl+C (0x03), Ctrl+U (0x15) and DEL (0x7f) is appended
to the buffer when its length is below 20 and echoed as a mask asterisk —
including non-printable bytes such as Tab or Escape. -/
theorem C10_no_printability_check :
    ∀ (st : HState) (c : Char),
      c ≠ '\r' → c ≠ '\n' → c ≠ '\x03' → c ≠ '\x15' → c ≠ '\x7f' →
      st.password.length < 20 →
      hidden_input_step st c
        = .pending ⟨st.password ++ [c], st.field_pos + 1⟩ [.maskStar] := by
  intro st c h1 h2 h3 h4 h5 h6
  simp [hidden_input_step, h1, h2, h3, h4, h5, h6]

theorem C10_witness :
    hidden_input_step ⟨[], 0⟩ '\t' = .pending ⟨['\t'], 1⟩ [.maskStar]
    ∧ hidden_input_step ⟨['a'], 1⟩ '\x1b'
        = .pending ⟨['a', '\x1b'], 2⟩ [.maskStar] := by
  constructor
  · exact C10_no_printability_check ⟨[], 0⟩ '\t'
      (by decide) (by decide) (by decide) (by decide) (by decide) (by decide)
  · exact C10_no_printability_check ⟨['a'], 1⟩ '\x1b'
      (by decide) (by decide) (by decide) (by decide) (by decide) (by decide)

/-- C9 (amended): `restore_terminal_state` is idempotent on the terminal
state — the second of two consecutive calls leaves the terminal state
exactly where the first call put it, so calling it twice is safe — but the
second call is not silent: it unconditionally writes the same restore
control sequence again. -/
theorem C9_restore_idempotent_on_state : ∀ t : TermDev,
    (restore_terminal_state (restore_terminal_state t)).state
      = (restore_terminal_state t).state
    ∧ (restore_terminal_state (restore_terminal_state t)).out
      = (restore_terminal_state t).out ++ [restore_seq] := by
  intro t
  exact ⟨rfl, rfl⟩

theorem step_iter_restores (cfg : Config) (st : LoopState) (b : IterBehavior) :
    (∀ st2 d, step_iter cfg st b = .cont st2 d → d.restores = 0) ∧
    (∀ d o, step_iter cfg st b = .halt d o → d.restores = play_exit_restores o) := by
  cases b with
  | normal =>
    by_cases hf : cfg.frame_exists st.frame_num = true
    · simp only [step_iter, if_pos hf]
      exact ⟨fun st2 d h => by cases h; rfl,
             fun d o h => IterResult.noConfusion h⟩
    · simp only [step_iter, if_neg hf]
      exact ⟨fun st2 d h => by cases h; rfl,
             fun d o h => IterResult.noConfusion h⟩
  | kbInt pt env =>
    rcases hv : verify_password env with _ | r
    · simp only [step_iter, hv]
      exact ⟨fun st2 d h => IterResult.noConfusion h,
             fun d o h => by cases h; rfl⟩
    · simp only [step_iter, hv]
      by_cases hs : r.success = true
      · rw [if_pos hs]
        exact ⟨fun st2 d h => IterResult.noConfusion h,
               fun d o h => by cases h; rfl⟩
      · rw [if_neg hs]
        exact ⟨fun st2 d h => by cases h; rfl,
               fun d o h => IterResult.noConfusion h⟩
  | fatal e =>
    simp only [step_iter]
    exact ⟨fun st2 d h => IterResult.noConfusion h,
           fun d o h => by cases h; rfl⟩

theorem play_restores (cfg : Config) : ∀ (evs : List Ev) (st : LoopState),
    (play_animation cfg st evs).1.restores
      = play_exit_restores (play_animation cfg st evs).2 := by
  intro evs
  induction evs with
  | nil => intro st; rfl
  | cons e evs ih =>
    intro st
    cases e with
    | sig s => simpa [play_animation, Trace.append] using ih st
    | iter b =>
      rcases hstep : step_iter cfg st b with ⟨st2, d⟩ | ⟨d, o⟩
      · have hd := (step_iter_restores cfg st b).1 st2 d hstep
        simpa [play_animation, hstep, Trace.append, hd] using ih st2
      · have hd := (step_iter_restores cfg st b).2 d o hstep
        simp [play_animation, hstep, hd]

/-- C1 (amended): `restore_terminal_state` is invoked exactly once on the
normal authenticated exit path, but exactly twice on the fatal-error exit
path — once by `play_animation`'s outer handler (line 280) and once more by
the `__main__` handler (line 296).  A run that is still animating, or that
is blocked waiting for keystrokes, has not restored at all.  So every exit
path restores at least once, but the fatal path restores twice, not once. -/
theorem C1_restore_count_per_exit_path : ∀ (cfg : Config) (evs : List Ev),
    ((main_run cfg evs).2 = .exited 0 → (main_run cfg evs).1.restores = 1) ∧
    (∀ e, (main_run cfg evs).2 = .raised_after_restore e →
      (main_run cfg evs).1.restores = 2) ∧
    (∀ st, (main_run cfg evs).2 = .running st →
      (main_run cfg evs).1.restores = 0) ∧
    ((main_run cfg evs).2 = .blocked → (main_run cfg evs).1.restores = 0) := by
  intro cfg evs
  have hp := play_restores cfg evs ⟨1, 1⟩
  unfold main_run
  rcases h : play_animation cfg ⟨1, 1⟩ evs with ⟨tr, o⟩
  rw [h] at hp
  cases o <;>
    simp only at hp <;>
    refine ⟨?_, fun e hh => ?_, fun st hh => ?_, ?_⟩ <;>
    simp_all [Trace.append, play_exit_restores]

/-- C1 counterexample: on the fatal-error exit path the terminal-state
restore runs twice, not exactly once — a fatal error during the first loop
iteration is restored by `play_animation`'s handler and again by the
`__main__` handler. -/
theorem C1_counterexample :
    (main_run cfg_all [.iter (.fatal "TerminalWriteFailure")]).1.restores = 2
    ∧ (main_run cfg_all [.iter (.fatal "TerminalWriteFailure")]).2
        = .raised_after_restore "TerminalWriteFailure"
    ∧ ¬((main_run cfg_all [.iter (.fatal "TerminalWriteFailure")]).1.restores
          = 1) := by
  refine ⟨rfl, rfl, by decide⟩

theorem C1_witness :
    (main_run cfg_all [.iter (.kbInt .midSleep env_ok)]).1.restores = 1
    ∧ (main_run cfg_all [.iter (.fatal "boom")]).1.restores = 2 := by
  constructor
  · exact (C1_restore_count_per_exit_path cfg_all
      [.iter (.kbInt .midSleep env_ok)]).1 rfl
  · exact (C1_restore_count_per_exit_path cfg_all
      [.iter (.fatal "boom")]).2.1 "boom" rfl

theorem play_filter_sig (cfg : Config) : ∀ (evs : List Ev) (st : LoopState),
    (play_animation cfg st (evs.filter not_sig)).2
        = (play_animation cfg st evs).2
    ∧ (play_animation cfg st (evs.filter not_sig)).1.restores
        = (play_animation cfg st evs).1.restores
    ∧ (play_animation cfg st (evs.filter not_sig)).1.rendered
        = (play_animation cfg st evs).1.rendered
    ∧ (play_animation cfg st (evs.filter not_sig)).1.records
        = (play_animation cfg st evs).1.records := by
  intro evs
  induction evs with
  | nil => intro st; exact ⟨rfl, rfl, rfl, rfl⟩
  | cons e evs ih =>
    intro st
    cases e with
    | sig s =>
      have h : (Ev.sig s :: evs).filter not_sig = evs.filter not_sig := by
        simp [not_sig]
      rw [h]
      obtain ⟨h1, h2, h3, h4⟩ := ih st
      exact ⟨h1.trans (by simp [play_animation]),
             h2.trans (by simp [play_animation, Trace.append]),
             h3.trans (by simp [play_animation, Trace.append]),
             h4.trans (by simp [play_animation, Trace.append])⟩
    | iter b =>
      have h : (Ev.iter b :: evs).filter not_sig
          = Ev.iter b :: evs.filter not_sig := by
        simp [not_sig]
      rw [h]
      rcases hstep : step_iter cfg st b with ⟨st2, d⟩ | ⟨d, o⟩
      · obtain ⟨h1, h2, h3, h4⟩ := ih st2
        refine ⟨?_, ?_, ?_, ?_⟩ <;>
          simp only [play_animation, hstep, Trace.append] <;>
          simp [h1, h2, h3, h4]
      · exact ⟨by simp [play_animation, hstep], by simp [play_animation, hstep],
               by simp [play_animation, hstep], by simp [play_animation, hstep]⟩

/-- C2: delivery of SIGTSTP or SIGQUIT while the loop is animating is
neutralized.  Handling such a signal only prepends the handler's log line
to the trace and leaves the loop state, and hence everything that follows,
unchanged; consequently a run with all signal deliveries erased has the
same outcome, the same restore count, the same rendered frames and the
same attempt records — the signals never cause a terminal-state restore or
a process exit. -/
theorem C2_stop_quit_signals_neutralized :
    ∀ (cfg : Config) (st : LoopState) (evs : List Ev),
    (∀ s, play_animation cfg st (.sig s :: evs)
        = (Trace.append ⟨[], [sig_log cfg s], 0, [], []⟩
            (play_animation cfg st evs).1,
           (play_animation cfg st evs).2))
    ∧ (play_animation cfg st (evs.filter not_sig)).2
        = (play_animation cfg st evs).2
    ∧ (play_animation cfg st (evs.filter not_sig)).1.restores
        = (play_animation cfg st evs).1.restores
    ∧ (play_animation cfg st (evs.filter not_sig)).1.rendered
        = (play_animation cfg st evs).1.rendered
    ∧ (play_animation cfg st (evs.filter not_sig)).1.records
        = (play_animation cfg st evs).1.records := by
  intro cfg st evs
  obtain ⟨h1, h2, h3, h4⟩ := play_filter_sig cfg evs st
  exact ⟨fun s => rfl, h1, h2, h3, h4⟩

/-- C7: a missing frame file never halts the loop.  Skipping is local: the
iteration renders nothing, completes no sleep, emits the diagnostic log
line, and the loop continues immediately with the next index (the
`current_frame` checkpoint unchanged); and a loop fed only normal frame
ticks is still running whatever the set of missing frames. -/
theorem C7_missing_frame_skipped :
    (∀ (cfg : Config) (st : LoopState) (evs : List Ev),
      cfg.frame_exists st.frame_num = false →
      play_animation cfg st (.iter .normal :: evs)
        = (Trace.append ⟨[], [missing_msg st.frame_num], 0, [], []⟩
            (play_animation cfg (advance st.current_frame st.frame_num) evs).1,
           (play_animation cfg (advance st.current_frame st.frame_num) evs).2))
    ∧ (∀ (cfg : Config) (st : LoopState) (n : Nat), ∃ st2,
        (play_animation cfg st (List.replicate n (.iter .normal))).2
          = .running st2) := by
  constructor
  · intro cfg st evs h
    have hf : ¬(cfg.frame_exists st.frame_num = true) := by simp [h]
    simp [play_animation, step_iter, if_neg hf]
  · intro cfg st n
    induction n generalizing st with
    | zero => exact ⟨st, rfl⟩
    | succ n ih =>
      rw [List.replicate_succ]
      by_cases hf : cfg.frame_exists st.frame_num = true
      · obtain ⟨st2, h2⟩ := ih (advance st.frame_num st.frame_num)
        exact ⟨st2, by simp [play_animation, step_iter, if_pos hf, h2]⟩
      · obtain ⟨st2, h2⟩ := ih (advance st.current_frame st.frame_num)
        exact ⟨st2, by simp [play_animation, step_iter, if_neg hf, h2]⟩

theorem C7_witness :
    play_animation cfg_miss10 ⟨9, 10⟩ [.iter .normal, .iter .normal]
      = (Trace.append ⟨[], [missing_msg 10], 0, [], []⟩
          (play_animation cfg_miss10 (advance 9 10) [.iter .normal]).1,
         (play_animation cfg_miss10 (advance 9 10) [.iter .normal]).2) := by
  exact C7_missing_frame_skipped.1 cfg_miss10 ⟨9, 10⟩ [.iter .normal] (by decide)

theorem verify_password_returned (env : VerifyEnv) (p : List Char)
    (h : get_hidden_input env.input = .returned p) :
    verify_password env = .done (verify_done env p) := by
  unfold verify_password verify_done
  by_cases hs : env.spwd_available = true
  · rw [if_pos hs, if_pos hs]
    cases hg : env.getspnam_result with
    | ok hash => rw [h]
    | error e => rfl
  · rw [if_neg hs, if_neg hs]
    rw [h]
    cases hd : env.dscl_result with
    | ok rc => rfl
    | error e => rfl

theorem verify_done_record (env : VerifyEnv) (p : List Char) :
    (verify_done env p).record
      = log_attempt env.sysinfo (verify_done env p).success (method_of env) := by
  unfold verify_done method_of
  by_cases hs : env.spwd_available = true
  · rw [if_pos hs, if_pos hs]
    cases hg : env.getspnam_result with
    | ok hash => rfl
    | error e => rfl
  · rw [if_neg hs, if_neg hs]
    cases hg : env.dscl_result with
    | ok rc => rfl
    | error e => rfl

theorem verify_success_iff_check (env : VerifyEnv) (r : VerifyResult)
    (h : verify_password env = .done r) :
    (r.success = true ↔ credential_check env = some true) := by
  unfold verify_password credential_check at *
  by_cases hs : env.spwd_available = true
  · rw [if_pos hs] at h ⊢
    cases hg : env.getspnam_result with
    | ok hash =>
      rw [hg] at h
      cases hi : get_hidden_input env.input with
      | pending st => rw [hi] at h; exact VerifyOutcome.noConfusion h
      | returned p =>
        rw [hi] at h
        injection h with h
        rw [← h]
        simp
      | kbInterrupt =>
        rw [hi] at h
        injection h with h
        rw [← h]
        simp
    | error e =>
      rw [hg] at h
      injection h with h
      rw [← h]
      simp
  · rw [if_neg hs] at h ⊢
    cases hi : get_hidden_input env.input with
    | pending st => rw [hi] at h; exact VerifyOutcome.noConfusion h
    | returned p =>
      rw [hi] at h
      cases hd : env.dscl_result with
      | ok rc =>
        rw [hd] at h
        injection h with h
        rw [← h]
        simp
      | error e =>
        rw [hd] at h
        injection h with h
        rw [← h]
        simp
    | kbInterrupt =>
      rw [hi] at h
      injection h with h
      rw [← h]
      simp

/-- C3: the gate succeeds exactly when the OS credential primitive answers
true.  A completed `verify_password` call returns `True` iff the credential
check it reached (crypt-hash comparison, or `dscl` exit status) returned
true; on a successful verification the loop writes the session-end log
line, restores the terminal once and terminates via `sys.exit(0)` — and
`SystemExit` passes through the `__main__` handler, so the process exits
with status 0; on every other outcome the loop keeps animating: the
continuation behaves exactly like the loop resumed in the `Animating`
state. -/
theorem C3_success_iff_verify :
    (∀ env r, verify_password env = .done r →
      (r.success = true ↔ credential_check env = some true))
    ∧ (∀ (cfg : Config) (st : LoopState) (pt : IntPt) (env : VerifyEnv)
        (evs : List Ev) (r : VerifyResult),
        verify_password env = .done r → r.success = true →
        play_animation cfg st (.iter (.kbInt pt env) :: evs)
          = (Trace.append ⟨mid_sleep_render cfg st pt, [], 0, [], []⟩
              ⟨[], [end_msg cfg], 1, [], [r.record]⟩, .exit0))
    ∧ (∀ (cfg : Config) (st : LoopState) (pt : IntPt) (env : VerifyEnv)
        (evs : List Ev) (r : VerifyResult),
        verify_password env = .done r → r.success = false →
        (play_animation cfg st (.iter (.kbInt pt env) :: evs)).2
          = (play_animation cfg ⟨st.current_frame, st.current_frame⟩ evs).2)
    ∧ (∀ (cfg : Config) (evs : List Ev),
        (play_animation cfg ⟨1, 1⟩ evs).2 = .exit0 →
        (main_run cfg evs).2 = .exited 0) := by
  refine ⟨verify_success_iff_check, ?_, ?_, ?_⟩
  · intro cfg st pt env evs r hv hs
    simp [play_animation, step_iter, hv, hs]
  · intro cfg st pt env evs r hv hs
    simp [play_animation, step_iter, hv, hs]
  · intro cfg evs h
    unfold main_run
    rcases h2 : play_animation cfg ⟨1, 1⟩ evs with ⟨tr, o⟩
    rw [h2] at h
    simp only at h
    rw [h]

theorem C3_witness :
    play_animation cfg_all ⟨1, 1⟩ [.iter (.kbInt .midSleep env_ok)]
      = (Trace.append ⟨mid_sleep_render cfg_all ⟨1, 1⟩ .midSleep, [], 0, [], []⟩
          ⟨[], [end_msg cfg_all], 1, [],
           [(⟨true, log_attempt si0 true "Linux shadow password", false⟩
              : VerifyResult).record]⟩, .exit0)
    ∧ (main_run cfg_all [.iter (.kbInt .midSleep env_ok)]).2 = .exited 0 := by
  constructor
  · exact C3_success_iff_verify.2.1 cfg_all ⟨1, 1⟩ .midSleep env_ok []
      ⟨true, log_attempt si0 true "Linux shadow password", false⟩ rfl rfl
  · exact C3_success_iff_verify.2.2.2 cfg_all
      [.iter (.kbInt .midSleep env_ok)] rfl

/-- C4 (amended): when the gate reports `Failure`, the loop resumes the
animation at `current_frame` — the index of the last tick that fully
completed, because the `current_frame = frame_num` checkpoint at line 258
runs only after the frame's sleep finishes.  An interrupt delivered before
the checkpoint (before the render, or mid-sleep) therefore resumes one
frame before the interrupted one: interrupted mid-sleep at frame 57 the
loop re-enters `Animating` at frame 56, not 57. -/
theorem C4_failure_resumes_at_last_committed_frame :
    ∀ (cfg : Config) (st : LoopState) (pt : IntPt) (env : VerifyEnv)
      (evs : List Ev) (r : VerifyResult),
      verify_password env = .done r → r.success = false →
      play_animation cfg st (.iter (.kbInt pt env) :: evs)
        = (Trace.append
            (Trace.append ⟨mid_sleep_render cfg st pt, [], 0, [], []⟩
              ⟨[], [], 0, [], [r.record]⟩)
            (play_animation cfg ⟨st.current_frame, st.current_frame⟩ evs).1,
           (play_animation cfg ⟨st.current_frame, st.current_frame⟩ evs).2) := by
  intro cfg st pt env evs r hv hs
  simp [play_animation, step_iter, hv, hs]

theorem C4_witness :
    play_animation cfg_all ⟨56, 57⟩ [.iter (.kbInt .midSleep env_fail),
        .iter .normal]
      = (Trace.append
          (Trace.append ⟨mid_sleep_render cfg_all ⟨56, 57⟩ .midSleep, [], 0, [], []⟩
            ⟨[], [], 0, [],
             [(⟨false, log_attempt si0 false "Linux shadow password", false⟩
                : VerifyResult).record]⟩)
          (play_animation cfg_all ⟨56, 56⟩ [.iter .normal]).1,
         (play_animation cfg_all ⟨56, 56⟩ [.iter .normal]).2) := by
  exact C4_failure_resumes_at_last_committed_frame cfg_all ⟨56, 57⟩ .midSleep
    env_fail [.iter .normal]
    ⟨false, log_attempt si0 false "Linux shadow password", false⟩ rfl rfl

/-- C4 counterexample: in the spec's own scenario — all frames present,
interrupt delivered mid-sleep during the tick of frame 57, wrong password —
the loop does not resume at frame 57: the next frame rendered after the
failed attempt is 56 (the animation had rendered frames 1-56 and the
interrupted render of 57), and the loop state shows the `for` restarted
from index 56. -/
theorem C4_counterexample :
    (play_animation cfg_all ⟨1, 1⟩ evs_c4).1.rendered
        = List.range' 1 57 ++ [56]
    ∧ (play_animation cfg_all ⟨1, 1⟩ evs_c4).2 = .running ⟨56, 57⟩
    ∧ (56 : Nat) ≠ 57 := by
  refine ⟨by decide, by decide, by decide⟩

/-- C6: attempt records are independent of the entered secret.  For two
completed password entries against the same backend configuration and the
same host-identity metadata, equal verification outcomes give equal logged
records: the record depends on the keystrokes only through the boolean
outcome, so no password characters reach the log sink. -/
theorem C6_log_independent_of_secret :
    ∀ (e1 e2 : VerifyEnv) (p1 p2 : List Char) (r1 r2 : VerifyResult),
      e1.sysinfo = e2.sysinfo →
      e1.spwd_available = e2.spwd_available →
      e1.getspnam_result = e2.getspnam_result →
      e1.crypt = e2.crypt →
      e1.dscl_result = e2.dscl_result →
      get_hidden_input e1.input = .returned p1 →
      get_hidden_input e2.input = .returned p2 →
      verify_password e1 = .done r1 →
      verify_password e2 = .done r2 →
      r1.success = r2.success →
      r1.record = r2.record := by
  intro e1 e2 p1 p2 r1 r2 hsi hsp hg hc hd h1 h2 hv1 hv2 hsuc
  rw [verify_password_returned e1 p1 h1] at hv1
  rw [verify_password_returned e2 p2 h2] at hv2
  injection hv1 with hv1
  injection hv2 with hv2
  have hm : method_of e1 = method_of e2 := by
    unfold method_of
    rw [hsp, hg, hd]
  rw [← hv1, ← hv2] at hsuc ⊢
  rw [verify_done_record e1 p1, verify_done_record e2 p2, hsi, hm, hsuc]

theorem C6_witness :
    (⟨false, ⟨"alice", "host", "10.0.0.2", false, "Linux shadow password"⟩,
        false⟩ : VerifyResult).record
      = (⟨false, ⟨"alice", "host", "10.0.0.2", false, "Linux shadow password"⟩,
          false⟩ : VerifyResult).record := by
  exact C6_log_independent_of_secret env_fail env_fail2 ['p', 'w'] ['q'] _ _
    rfl rfl rfl rfl rfl (by decide) (by decide) rfl rfl rfl

/-- C8 (amended): `verify_password` falls back to the directory-service
mechanism (`dscl`) only when the shadow modules fail to import
(`except ImportError`).  When `spwd`/`crypt` import but the shadow lookup
itself raises — the shadow mechanism being unavailable to this process —
there is no fallback: the error is caught by the generic handler and
returned as an ordinary failed attempt whose record carries the method
string "error: ...".  When the shadow import fails, `dscl` is invoked; and
when that also raises — neither mechanism available — the result is again
an ordinary failed attempt, never a hard failure: `verify_password`
catches every exception and returns a boolean. -/
theorem C8_fallback_only_on_import_error :
    (∀ env r, env.spwd_available = true → verify_password env = .done r →
      r.dscl_invoked = false)
    ∧ (∀ env e, env.spwd_available = true →
        env.getspnam_result = .error e →
        verify_password env
          = .done ⟨false, log_attempt env.sysinfo false ("error: " ++ e),
              false⟩)
    ∧ (∀ env p, env.spwd_available = false →
        get_hidden_input env.input = .returned p →
        ∃ r, verify_password env = .done r ∧ r.dscl_invoked = true)
    ∧ (∀ env e p, env.spwd_available = false →
        env.dscl_result = .error e →
        get_hidden_input env.input = .returned p →
        verify_password env
          = .done ⟨false, log_attempt env.sysinfo false ("error: " ++ e),
              true⟩) := by
  refine ⟨?_, ?_, ?_, ?_⟩
  · intro env r hs hv
    unfold verify_password at hv
    rw [if_pos hs] at hv
    cases hg : env.getspnam_result with
    | ok hash =>
      rw [hg] at hv
      cases hi : get_hidden_input env.input with
      | pending st => rw [hi] at hv; exact VerifyOutcome.noConfusion hv
      | returned p =>
        rw [hi] at hv
        injection hv with hv
        rw [← hv]
      | kbInterrupt =>
        rw [hi] at hv
        injection hv with hv
        rw [← hv]
    | error e =>
      rw [hg] at hv
      injection hv with hv
      rw [← hv]
  · intro env e hs hg
    unfold verify_password
    rw [if_pos hs, hg]
  · intro env p hs hi
    rw [verify_password_returned env p hi]
    refine ⟨verify_done env p, rfl, ?_⟩
    unfold verify_done
    rw [if_neg (by simp [hs])]
    cases hd : env.dscl_result with
    | ok rc => rfl
    | error e => rfl
  · intro env e p hs hd hi
    rw [verify_password_returned env p hi]
    unfold verify_done
    rw [if_neg (by simp [hs]), hd]

/-- C8 counterexample: with the shadow modules importable but the shadow
lookup raising (as happens for a non-root user), the primary mechanism is
unavailable yet `verify_password` does not fall back to `dscl`: it returns
an ordinary failed attempt logged with method "error: PermissionError",
and no run of this environment invokes the fallback. -/
theorem C8_counterexample :
    verify_password env_perm
      = .done ⟨false, ⟨"alice", "host", "10.0.0.2", false,
          "error: PermissionError"⟩, false⟩
    ∧ ¬(∃ r, verify_password env_perm = .done r ∧ r.dscl_invoked = true) := by
  constructor
  · rfl
  · rintro ⟨r, hr, hd⟩
    have h0 : verify_password env_perm
        = .done ⟨false, ⟨"alice", "host", "10.0.0.2", false,
            "error: PermissionError"⟩, false⟩ := rfl
    rw [h0] at hr
    injection hr with hr
    rw [← hr] at hd
    exact Bool.noConfusion hd

theorem C8_witness :
    verify_password env_perm
      = .done ⟨false, log_attempt env_perm.sysinfo false
          ("error: " ++ "PermissionError"), false⟩
    ∧ verify_password env_both_unavailable
      = .done ⟨false, log_attempt env_both_unavailable.sysinfo false
          ("error: " ++ "FileNotFoundError: dscl"), true⟩ := by
  constructor
  · exact C8_fallback_only_on_import_error.2.1 env_perm "PermissionError"
      rfl rfl
  · exact C8_fallback_only_on_import_error.2.2.2 env_both_unavailable
      "FileNotFoundError: dscl" ['p', 'w'] rfl rfl (by decide)

/-- C9 counterexample: the claim that the second call "performs no
terminal-state change (emits nothing)" is false — starting from the
alternate screen with hidden cursor and an empty output log, the second
consecutive `restore_terminal_state` call changes the output stream (it
emits the restore sequence again). -/
theorem C9_counterexample :
    ¬((restore_terminal_state (restore_terminal_state ⟨⟨true, false⟩, []⟩)).out
        = (restore_terminal_state ⟨⟨true, false⟩, []⟩).out) := by
  decide

end Lock
